import Mathlib

/-!
Verification of the Autotrade broker integration layer of FinceptTerminal.

Shallow embedding of:
* `src/brokers/autotrade/types.ts` — remote-schema records and the two pure
  transform functions (`transformAutotradePositionToPosition`,
  `transformAutotradePortfolioToFincept`);
* `src/brokers/autotrade/AutotradeAdapter.ts` — the broker adapter
  (write-operation stubs, `getFunds`, `getPositions`); the Tauri bridge
  `invoke` is modelled as an explicit oracle value, and the adapter state
  carries an invocation counter so that "no network call happens" is a
  provable statement;
* `src/services/portfolio/autotradeService.ts` — the portfolio bridge
  service (`fetchAutotradePortfolio`, `getPortfolioSummary`).

JavaScript `number` is modelled as `ℚ` (all arithmetic in these files is
addition, multiplication, absolute value and one guarded division, which the
spec treats as exact arithmetic).  Impure clock reads (`Date.now()`,
`new Date().toISOString()`) are threaded in as explicit parameters.
-/

namespace Autotrade

/-- JavaScript `x || d` on an optional string: `undefined` and the empty
string are falsy, so both fall through to the default. -/
def jsOrString (s : Option String) (d : String) : String :=
  match s with
  | some v => if v = "" then d else v
  | none => d

/-- Unified broker `Position` (constructed by the adapter's transforms; field
set read off the construction sites in `types.ts` and `AutotradeAdapter.ts`).
Exchange / product-type string unions are modelled as `String`. -/
structure Position where
  symbol : String
  exchange : String
  productType : String
  quantity : ℚ
  buyQuantity : ℚ
  sellQuantity : ℚ
  buyValue : ℚ
  sellValue : ℚ
  averagePrice : ℚ
  lastPrice : ℚ
  pnl : ℚ
  pnlPercent : ℚ
  dayPnl : ℚ
  overnight : Bool
  deriving Repr, DecidableEq

/-- `AutotradePosition` from `types.ts` (extends `Position` with
autotrade-specific fields; the TS `extends` is flattened). -/
structure AutotradePosition where
  symbol : String
  exchange : String
  productType : String
  quantity : ℚ
  buyQuantity : ℚ
  sellQuantity : ℚ
  buyValue : ℚ
  sellValue : ℚ
  averagePrice : ℚ
  lastPrice : ℚ
  pnl : ℚ
  pnlPercent : ℚ
  dayPnl : ℚ
  overnight : Bool
  instrument_id : String
  market_value : ℚ
  cost_basis : ℚ
  day_change : ℚ
  day_change_percent : ℚ
  weight : ℚ
  instrument_type : Option String
  deriving Repr, DecidableEq

/-- `AutotradePortfolioSummary` from `types.ts` (matches the
`/api/v1/portfolio` response). -/
structure AutotradePortfolioSummary where
  account_id : String
  timestamp : Int
  currency : String
  cash_balance : ℚ
  total_market_value : ℚ
  total_cost_basis : ℚ
  total_unrealized_pnl : ℚ
  total_unrealized_pnl_percent : ℚ
  total_realized_pnl : ℚ
  total_positions : Nat
  net_liquidation_value : ℚ
  buying_power : Option ℚ
  day_trading_buying_power : Option ℚ
  positions : List AutotradePosition
  last_updated : String
  deriving Repr, DecidableEq

/-- `AutotradePortfolioHolding` from `types.ts` — one holding row in the
format expected by the Fincept portfolio system. -/
structure AutotradePortfolioHolding where
  symbol : String
  instrument_id : String
  portfolio_id : String
  quantity : ℚ
  avg_buy_price : ℚ
  current_price : ℚ
  market_value : ℚ
  cost_basis : ℚ
  unrealized_pnl : ℚ
  unrealized_pnl_percent : ℚ
  day_change : ℚ
  day_change_percent : ℚ
  weight : ℚ
  first_purchase_date : String
  last_updated : String
  deriving Repr, DecidableEq

/-- `AutotradeApiResponse<T>` from `types.ts` — the success-flagged envelope
returned by every native-bridge command. -/
structure AutotradeApiResponse (α : Type) where
  success : Bool
  data : Option α
  error : Option String
  errorCode : Option String
  timestamp : Int
  stale : Option Bool
  age_seconds : Option ℚ
  deriving Repr, DecidableEq

/-- `transformAutotradePositionToPosition` from `types.ts` (lines 255–274):
copies fields, derives `buyQuantity` / `sellQuantity` from the sign of
`quantity`, defaults `productType` to `CASH`, and forces `overnight := true`.
The TS `autotradePosition.productType || 'CASH'` default is modelled with
`jsOrString` over the (always-present, possibly empty) string field. -/
def transformAutotradePositionToPosition (ap : AutotradePosition) : Position :=
  { symbol := ap.symbol
    exchange := ap.exchange
    productType := jsOrString (some ap.productType) "CASH"
    quantity := ap.quantity
    buyQuantity := if ap.quantity > 0 then ap.quantity else 0
    sellQuantity := if ap.quantity < 0 then |ap.quantity| else 0
    buyValue := ap.buyValue
    sellValue := ap.sellValue
    averagePrice := ap.averagePrice
    lastPrice := ap.lastPrice
    pnl := ap.pnl
    pnlPercent := ap.pnlPercent
    dayPnl := ap.dayPnl
    overnight := true }

/-- Return record of `transformAutotradePortfolioToFincept` (the anonymous
object type in `types.ts` lines 283–291). -/
structure FinceptTransformResult where
  holdings : List AutotradePortfolioHolding
  totalMarketValue : ℚ
  totalCostBasis : ℚ
  totalUnrealizedPnl : ℚ
  totalUnrealizedPnlPercent : ℚ
  totalPositions : Nat
  lastUpdated : String
  deriving Repr, DecidableEq

/-- `transformAutotradePortfolioToFincept` from `types.ts` (lines 280–319):
maps each position to a holding row and passes the aggregates through
untouched.  `firstPurchaseIso` stands for the impure
`new Date(Date.now() - 86400000).toISOString()` fallback. -/
def transformAutotradePortfolioToFincept (portfolio : AutotradePortfolioSummary)
    (portfolioId : String) (firstPurchaseIso : String) : FinceptTransformResult :=
  { holdings := portfolio.positions.map (fun pos =>
      { symbol := pos.symbol
        instrument_id := pos.instrument_id
        portfolio_id := portfolioId
        quantity := pos.quantity
        avg_buy_price := pos.averagePrice
        current_price := pos.lastPrice
        market_value := pos.market_value
        cost_basis := pos.cost_basis
        unrealized_pnl := pos.pnl
        unrealized_pnl_percent := pos.pnlPercent
        day_change := pos.dayPnl
        day_change_percent := 0
        weight := pos.weight
        first_purchase_date := firstPurchaseIso
        last_updated := portfolio.last_updated })
    totalMarketValue := portfolio.total_market_value
    totalCostBasis := portfolio.total_cost_basis
    totalUnrealizedPnl := portfolio.total_unrealized_pnl
    totalUnrealizedPnlPercent := portfolio.total_unrealized_pnl_percent
    totalPositions := portfolio.total_positions
    lastUpdated := portfolio.last_updated }

/-- `Funds` (unified broker type from `stocks/types.ts`, not in the shipped
sources; field set read off its construction site in
`AutotradeAdapter.getFunds`). -/
structure Funds where
  availableCash : ℚ
  usedMargin : ℚ
  availableMargin : ℚ
  totalBalance : ℚ
  currency : String
  deriving Repr, DecidableEq

/-- Modelled from the spec: `OrderParams` of `stocks/types.ts` is not in the
shipped sources; §6 of the design document gives the order-placement body
fields as symbol, quantity, side and order_type.  The adapter ignores the
value entirely. -/
structure OrderParams where
  symbol : String
  quantity : ℚ
  side : String
  order_type : String
  deriving Repr, DecidableEq

/-- Modelled from the spec: `ModifyOrderParams` of `stocks/types.ts` is not in
the shipped sources; an order modification carries the order id plus the
fields being changed.  The adapter ignores the value entirely. -/
structure ModifyOrderParams where
  orderId : String
  quantity : Option ℚ
  price : Option ℚ
  deriving Repr, DecidableEq

/-- Modelled from the spec: `SmartOrderParams` of `stocks/types.ts` is not in
the shipped sources.  The adapter ignores the value entirely. -/
structure SmartOrderParams where
  symbol : String
  quantity : ℚ
  side : String
  deriving Repr, DecidableEq

/-- `OrderResponse` (unified broker type from `stocks/types.ts`, not in the
shipped sources; field set read off the adapter's construction sites and the
parallel `AutotradeOrderResponse` in `types.ts`: optional order id, message
and error code). -/
structure OrderResponse where
  success : Bool
  orderId : Option String
  message : Option String
  errorCode : Option String
  deriving Repr, DecidableEq

/-- `BulkOperationResult` (unified broker type from `stocks/types.ts`, not in
the shipped sources; field set read off the construction sites in
`cancelAllOrders` / `closeAllPositions`, with `message` and `errorCode`
optional in the same pattern as `OrderResponse` — the adapter's literals set
neither, i.e. both are `undefined` = `none`). -/
structure BulkOperationResult where
  success : Bool
  totalCount : Nat
  successCount : Nat
  failedCount : Nat
  results : List OrderResponse
  message : Option String
  errorCode : Option String
  deriving Repr, DecidableEq

/-- Outcome of one Tauri `invoke` of a native-bridge command: the promise
either resolves with an envelope or rejects with an error. -/
inductive BridgeOutcome (α : Type) where
  | ok (resp : AutotradeApiResponse α)
  | reject (err : String)
  deriving Repr

/-- Mutable state of an `AutotradeAdapter` instance (`_isConnected`,
`_accountId`), extended with an `invokeCount` instrumentation field counting
how many native-bridge invocations the adapter has performed — the
"call-count assertion on the bridge" of the spec. -/
structure AdapterState where
  isConnected : Bool
  accountId : String
  invokeCount : Nat
  deriving Repr, DecidableEq

/-- Adapter state of a freshly constructed `AutotradeAdapter`
(`_isConnected = false`, `_accountId = ''`, no bridge call yet). -/
def initialAdapterState : AdapterState :=
  { isConnected := false, accountId := "", invokeCount := 0 }

namespace AutotradeAdapter

/-- `invokeAutotradeCommand` from `AutotradeAdapter.ts`: performs one bridge
`invoke` (counted in the state) and either returns the envelope or rethrows
the rejection.  The bridge itself is an oracle parameter. -/
def invokeAutotradeCommand {α : Type} (bridge : BridgeOutcome α)
    (st : AdapterState) : BridgeOutcome α × AdapterState :=
  (bridge, { st with invokeCount := st.invokeCount + 1 })

/-- `AutotradeAdapter.getFunds`: invokes `autotrade_get_account_summary`; on a
rejected invocation, or an envelope with `success = false` or missing `data`,
it throws (modelled as `Except.error`); otherwise it maps the portfolio
summary to a `Funds` record.  The outer `catch` only logs and rethrows. -/
def getFunds (bridge : BridgeOutcome AutotradePortfolioSummary)
    (st : AdapterState) : Except String Funds × AdapterState :=
  let r := invokeAutotradeCommand bridge st
  match r.1 with
  | .reject e => (.error e, r.2)
  | .ok resp =>
    match resp.data with
    | none => (.error (jsOrString resp.error "Failed to fetch funds"), r.2)
    | some portfolio =>
      if resp.success then
        (.ok { availableCash := portfolio.cash_balance
               usedMargin := 0
               availableMargin := 0
               totalBalance := portfolio.net_liquidation_value
               currency := portfolio.currency }, r.2)
      else
        (.error (jsOrString resp.error "Failed to fetch funds"), r.2)

/-- `AutotradeAdapter.transformPosition` (private helper, lines 796–817 of the
adapter source): same sign-split as `transformAutotradePositionToPosition`,
additionally deriving `buyValue` / `sellValue` from the average price. -/
def transformPosition (ap : AutotradePosition) : Position :=
  { symbol := ap.symbol
    exchange := ap.exchange
    productType := jsOrString (some ap.productType) "CASH"
    quantity := ap.quantity
    buyQuantity := if ap.quantity > 0 then ap.quantity else 0
    sellQuantity := if ap.quantity < 0 then |ap.quantity| else 0
    buyValue := if ap.quantity > 0 then ap.quantity * ap.averagePrice else 0
    sellValue := if ap.quantity < 0 then |ap.quantity| * ap.averagePrice else 0
    averagePrice := ap.averagePrice
    lastPrice := ap.lastPrice
    pnl := ap.pnl
    pnlPercent := ap.pnlPercent
    dayPnl := ap.dayPnl
    overnight := true }

/-- `AutotradeAdapter.getPositions`: invokes `autotrade_get_positions`; a
rejected invocation is swallowed by the `catch` (returns `[]`), and an
envelope with `success = false` or missing `data` also returns `[]`;
otherwise each raw position is transformed.  The function is total — it
never throws past the interface boundary. -/
def getPositions (bridge : BridgeOutcome (List AutotradePosition))
    (st : AdapterState) : List Position × AdapterState :=
  let r := invokeAutotradeCommand bridge st
  match r.1 with
  | .reject _ => ([], r.2)
  | .ok resp =>
    match resp.data with
    | none => ([], r.2)
    | some data =>
      if resp.success then (data.map transformPosition, r.2) else ([], r.2)

/-- `AutotradeAdapter.placeOrder`: unconditional structured failure, no
bridge call in the body. -/
def placeOrder (_params : OrderParams) (st : AdapterState) :
    OrderResponse × AdapterState :=
  ({ success := false
     orderId := none
     message := some "Autotrade does not support manual order placement"
     errorCode := some "NOT_SUPPORTED" }, st)

/-- `AutotradeAdapter.modifyOrder`: unconditional structured failure, no
bridge call in the body. -/
def modifyOrder (_params : ModifyOrderParams) (st : AdapterState) :
    OrderResponse × AdapterState :=
  ({ success := false
     orderId := none
     message := some "Autotrade does not support manual order modification"
     errorCode := some "NOT_SUPPORTED" }, st)

/-- `AutotradeAdapter.cancelOrder`: unconditional structured failure, no
bridge call in the body. -/
def cancelOrder (_orderId : String) (st : AdapterState) :
    OrderResponse × AdapterState :=
  ({ success := false
     orderId := none
     message := some "Autotrade does not support manual order cancellation"
     errorCode := some "NOT_SUPPORTED" }, st)

/-- `AutotradeAdapter.placeSmartOrder`: unconditional structured failure, no
bridge call in the body. -/
def placeSmartOrder (_params : SmartOrderParams) (st : AdapterState) :
    OrderResponse × AdapterState :=
  ({ success := false
     orderId := none
     message := some "Autotrade does not support smart orders"
     errorCode := some "NOT_SUPPORTED" }, st)

/-- `AutotradeAdapter.cancelAllOrders`: returns a zeroed
`BulkOperationResult` with `success = false`; the literal in the source sets
neither `message` nor `errorCode`; no bridge call in the body. -/
def cancelAllOrders (st : AdapterState) : BulkOperationResult × AdapterState :=
  ({ success := false
     totalCount := 0
     successCount := 0
     failedCount := 0
     results := []
     message := none
     errorCode := none }, st)

/-- `AutotradeAdapter.closeAllPositions`: returns a zeroed
`BulkOperationResult` with `success = false`; the literal in the source sets
neither `message` nor `errorCode`; no bridge call in the body. -/
def closeAllPositions (st : AdapterState) : BulkOperationResult × AdapterState :=
  ({ success := false
     totalCount := 0
     successCount := 0
     failedCount := 0
     results := []
     message := none
     errorCode := none }, st)

end AutotradeAdapter

/-- `HoldingWithQuote` (from `portfolioService.ts`, not in the shipped
sources; field set read off its construction site in
`AutotradePortfolioService.getPortfolioSummary`). -/
structure HoldingWithQuote where
  id : String
  portfolio_id : String
  symbol : String
  quantity : ℚ
  avg_buy_price : ℚ
  current_price : ℚ
  market_value : ℚ
  cost_basis : ℚ
  unrealized_pnl : ℚ
  unrealized_pnl_percent : ℚ
  day_change : ℚ
  day_change_percent : ℚ
  weight : ℚ
  first_purchase_date : String
  last_updated : String
  deriving Repr, DecidableEq

/-- `Portfolio` (from `portfolioService.ts`, not in the shipped sources;
field set read off its construction site in `getPortfolioSummary`). -/
structure Portfolio where
  id : String
  name : String
  owner : String
  currency : String
  description : String
  created_at : String
  updated_at : String
  deriving Repr, DecidableEq

/-- `PortfolioSummary` (from `portfolioService.ts`, not in the shipped
sources; field set read off the return value of `getPortfolioSummary`). -/
structure PortfolioSummary where
  portfolio : Portfolio
  holdings : List HoldingWithQuote
  total_market_value : ℚ
  total_cost_basis : ℚ
  total_unrealized_pnl : ℚ
  total_unrealized_pnl_percent : ℚ
  total_positions : Nat
  total_day_change : ℚ
  total_day_change_percent : ℚ
  last_updated : String
  deriving Repr, DecidableEq

namespace AutotradePortfolioService

/-- Default portfolio grouping key of `AutotradePortfolioService`. -/
def defaultPortfolioId : String := "autotrade-portfolio"

/-- The `totalMarketValue` reduce of `fetchAutotradePortfolio`:
`sum + Math.abs(p.quantity * p.lastPrice)` over the fetched positions. -/
def totalMarketValueOf (positions : List Position) : ℚ :=
  positions.foldl (fun sum p => sum + |p.quantity * p.lastPrice|) 0

/-- The `totalCostBasis` reduce of `fetchAutotradePortfolio`:
`sum + Math.abs(p.quantity * p.averagePrice)` over the fetched positions. -/
def totalCostBasisOf (positions : List Position) : ℚ :=
  positions.foldl (fun sum p => sum + |p.quantity * p.averagePrice|) 0

/-- The `totalUnrealizedPnl` reduce of `fetchAutotradePortfolio`:
`sum + p.pnl` over the fetched positions. -/
def totalUnrealizedPnlOf (positions : List Position) : ℚ :=
  positions.foldl (fun sum p => sum + p.pnl) 0

/-- `AutotradePortfolioService.fetchAutotradePortfolio` (success path, after
`adapter.getFunds()` and `adapter.getPositions()` have resolved to `funds`
and `positions`; a rejection of either is rethrown by the `catch`, so no
summary is synthesized then).  `nowMs` stands for `Date.now()` and `nowIso`
for `new Date().toISOString()`. -/
def fetchAutotradePortfolio (accountId : String) (funds : Funds)
    (positions : List Position) (nowMs : Int) (nowIso : String) :
    AutotradePortfolioSummary :=
  let totalMarketValue := totalMarketValueOf positions
  let totalCostBasis := totalCostBasisOf positions
  let totalUnrealizedPnl := totalUnrealizedPnlOf positions
  { account_id := accountId
    timestamp := nowMs
    currency := "USD"
    cash_balance := funds.availableCash
    total_market_value := totalMarketValue
    total_cost_basis := totalCostBasis
    total_unrealized_pnl := totalUnrealizedPnl
    total_unrealized_pnl_percent :=
      if totalCostBasis > 0 then totalUnrealizedPnl / totalCostBasis * 100 else 0
    total_realized_pnl := 0
    total_positions := positions.length
    net_liquidation_value := totalMarketValue + funds.availableCash
    buying_power := none
    day_trading_buying_power := none
    positions := positions.map (fun p =>
      { symbol := p.symbol
        instrument_id := p.symbol ++ "." ++ p.exchange
        exchange := p.exchange
        productType := p.productType
        quantity := p.quantity
        buyQuantity := p.buyQuantity
        sellQuantity := p.sellQuantity
        buyValue := p.buyValue
        sellValue := p.sellValue
        averagePrice := p.averagePrice
        lastPrice := p.lastPrice
        pnl := p.pnl
        pnlPercent := p.pnlPercent
        dayPnl := p.dayPnl
        overnight := p.overnight || true
        market_value := |p.quantity * p.lastPrice|
        cost_basis := |p.quantity * p.averagePrice|
        day_change := p.dayPnl
        day_change_percent := 0
        weight := 0
        instrument_type := some "ETF" })
    last_updated := nowIso }

/-- `AutotradePortfolioService.getPortfolioSummary` (success path, with the
adapter injected and its two reads resolved to `funds` and `positions`):
synthesizes the Autotrade summary, runs it through
`transformAutotradePortfolioToFincept`, and packages the holdings with a
default portfolio record.  `firstPurchaseIso` stands for the transform's
impure `new Date(Date.now() - 86400000).toISOString()` fallback. -/
def getPortfolioSummary (accountId : String) (funds : Funds)
    (positions : List Position) (nowMs : Int) (nowIso : String)
    (firstPurchaseIso : String) : PortfolioSummary :=
  let autotradePortfolio := fetchAutotradePortfolio accountId funds positions nowMs nowIso
  let finceptPortfolio :=
    transformAutotradePortfolioToFincept autotradePortfolio defaultPortfolioId firstPurchaseIso
  let holdings : List HoldingWithQuote := finceptPortfolio.holdings.map (fun h =>
    { id := h.instrument_id
      portfolio_id := defaultPortfolioId
      symbol := h.symbol
      quantity := h.quantity
      avg_buy_price := h.avg_buy_price
      current_price := h.current_price
      market_value := h.market_value
      cost_basis := h.cost_basis
      unrealized_pnl := h.unrealized_pnl
      unrealized_pnl_percent := h.unrealized_pnl_percent
      day_change := h.day_change
      day_change_percent := h.day_change_percent
      weight := h.weight
      first_purchase_date := h.first_purchase_date
      last_updated := h.last_updated })
  { portfolio :=
      { id := defaultPortfolioId
        name := "Autotrade Portfolio"
        owner := accountId
        currency := "USD"
        description := "Autotrade automated trading portfolio"
        created_at := autotradePortfolio.last_updated
        updated_at := autotradePortfolio.last_updated }
    holdings := holdings
    total_market_value := finceptPortfolio.totalMarketValue
    total_cost_basis := finceptPortfolio.totalCostBasis
    total_unrealized_pnl := finceptPortfolio.totalUnrealizedPnl
    total_unrealized_pnl_percent := finceptPortfolio.totalUnrealizedPnlPercent
    total_positions := finceptPortfolio.totalPositions
    total_day_change := 0
    total_day_change_percent := 0
    last_updated := finceptPortfolio.lastUpdated }

end AutotradePortfolioService

/-- `sampleAutotradePosition` from `types.ts` (the repository's own test
fixture). -/
def sampleAutotradePosition : AutotradePosition :=
  { symbol := "TQQQ"
    exchange := "NASDAQ"
    productType := "CASH"
    quantity := 100
    buyQuantity := 100
    sellQuantity := 0
    buyValue := 4550
    sellValue := 0
    averagePrice := 45.5
    lastPrice := 46.25
    pnl := 75
    pnlPercent := 1.648
    dayPnl := 12.5
    overnight := true
    instrument_id := "TQQQ.NASDAQ"
    market_value := 4625
    cost_basis := 4550
    day_change := 12.5
    day_change_percent := 0.272
    weight := 0.0231
    instrument_type := some "ETF" }

/-- Concrete `success = false` bridge envelope, used to exercise the failure
paths. -/
def sampleFailEnvelope : AutotradeApiResponse AutotradePortfolioSummary :=
  { success := false
    data := none
    error := some "Autotrade service unavailable"
    errorCode := some "NOT_CONNECTED"
    timestamp := 0
    stale := none
    age_seconds := none }

/-- Concrete funds record of the §8 scenario (`availableCash = 50000`). -/
def scenarioFunds : Funds :=
  { availableCash := 50000
    usedMargin := 0
    availableMargin := 0
    totalBalance := 54625
    currency := "USD" }

/-- Concrete unified position of the §8 scenario (`quantity = 100`,
`averagePrice = 45.5`, `lastPrice = 46.25`, `pnl = 75`). -/
def scenarioPosition : Position :=
  { symbol := "TQQQ"
    exchange := "NASDAQ"
    productType := "CASH"
    quantity := 100
    buyQuantity := 100
    sellQuantity := 0
    buyValue := 4550
    sellValue := 0
    averagePrice := 45.5
    lastPrice := 46.25
    pnl := 75
    pnlPercent := 1.648
    dayPnl := 12.5
    overnight := true }

/-- Small concrete position with unit-friendly numbers, used to evaluate the
portfolio service end to end. -/
def smallPosition : Position :=
  { symbol := "SPY"
    exchange := "ARCA"
    productType := "CASH"
    quantity := 1
    buyQuantity := 1
    sellQuantity := 0
    buyValue := 2
    sellValue := 0
    averagePrice := 2
    lastPrice := 3
    pnl := 1
    pnlPercent := 50
    dayPnl := 0
    overnight := true }

/-- C1 (amended): every adapter write operation returns `success = false`
and leaves the bridge invocation count unchanged; `placeOrder`,
`modifyOrder`, `cancelOrder` and `placeSmartOrder` additionally carry the
non-empty error code `NOT_SUPPORTED`, while `cancelAllOrders` and
`closeAllPositions` return a zeroed bulk result carrying no error code at
all. -/
theorem write_ops_fail_without_bridge_call (p : OrderParams)
    (m : ModifyOrderParams) (oid : String) (sp : SmartOrderParams)
    (st : AdapterState) :
    ((AutotradeAdapter.placeOrder p st).1.success = false ∧
      (AutotradeAdapter.placeOrder p st).1.errorCode = some "NOT_SUPPORTED" ∧
      (AutotradeAdapter.placeOrder p st).2.invokeCount = st.invokeCount) ∧
    ((AutotradeAdapter.modifyOrder m st).1.success = false ∧
      (AutotradeAdapter.modifyOrder m st).1.errorCode = some "NOT_SUPPORTED" ∧
      (AutotradeAdapter.modifyOrder m st).2.invokeCount = st.invokeCount) ∧
    ((AutotradeAdapter.cancelOrder oid st).1.success = false ∧
      (AutotradeAdapter.cancelOrder oid st).1.errorCode = some "NOT_SUPPORTED" ∧
      (AutotradeAdapter.cancelOrder oid st).2.invokeCount = st.invokeCount) ∧
    ((AutotradeAdapter.placeSmartOrder sp st).1.success = false ∧
      (AutotradeAdapter.placeSmartOrder sp st).1.errorCode = some "NOT_SUPPORTED" ∧
      (AutotradeAdapter.placeSmartOrder sp st).2.invokeCount = st.invokeCount) ∧
    ((AutotradeAdapter.cancelAllOrders st).1.success = false ∧
      (AutotradeAdapter.cancelAllOrders st).1.errorCode = none ∧
      (AutotradeAdapter.cancelAllOrders st).2.invokeCount = st.invokeCount) ∧
    ((AutotradeAdapter.closeAllPositions st).1.success = false ∧
      (AutotradeAdapter.closeAllPositions st).1.errorCode = none ∧
      (AutotradeAdapter.closeAllPositions st).2.invokeCount = st.invokeCount) :=
  ⟨⟨rfl, rfl, rfl⟩, ⟨rfl, rfl, rfl⟩, ⟨rfl, rfl, rfl⟩, ⟨rfl, rfl, rfl⟩,
    ⟨rfl, rfl, rfl⟩, ⟨rfl, rfl, rfl⟩⟩

/-- C1 counterexample: `cancelAllOrders` does return `success = false`, but
its result carries no error code at all (`errorCode = none`), refuting
"a non-empty errorCode" for every write operation. -/
theorem cancelAllOrders_has_no_errorCode :
    (AutotradeAdapter.cancelAllOrders initialAdapterState).1.success = false ∧
    (AutotradeAdapter.cancelAllOrders initialAdapterState).1.errorCode = none ∧
    ¬ ∃ c, (AutotradeAdapter.cancelAllOrders initialAdapterState).1.errorCode
        = some c ∧ c ≠ "" := by
  refine ⟨rfl, rfl, ?_⟩
  rintro ⟨c, hc, -⟩
  exact Option.noConfusion hc

/-- C2: whenever the `autotrade_get_account_summary` envelope has
`success = false` or carries no `data`, `getFunds` throws instead of
returning a default `Funds` value. -/
theorem getFunds_throws_on_failure_envelope
    (resp : AutotradeApiResponse AutotradePortfolioSummary)
    (st : AdapterState) (h : resp.success = false ∨ resp.data = none) :
    ∃ e, (AutotradeAdapter.getFunds (.ok resp) st).1 = .error e := by
  rcases hd : resp.data with _ | portfolio
  · exact ⟨jsOrString resp.error "Failed to fetch funds",
      by simp [AutotradeAdapter.getFunds,
        AutotradeAdapter.invokeAutotradeCommand, hd]⟩
  · rcases h with hs | hne
    · exact ⟨jsOrString resp.error "Failed to fetch funds",
        by simp [AutotradeAdapter.getFunds,
          AutotradeAdapter.invokeAutotradeCommand, hd, hs]⟩
    · rw [hd] at hne
      exact absurd hne (by simp)

/-- C2 witness: at the concrete failure envelope, `getFunds` ends in an
error. -/
theorem getFunds_throws_on_failure_envelope_witness :
    ∃ e, (AutotradeAdapter.getFunds (.ok sampleFailEnvelope)
      initialAdapterState).1 = .error e :=
  getFunds_throws_on_failure_envelope sampleFailEnvelope initialAdapterState
    (Or.inl rfl)

/-- C3: whenever the `autotrade_get_positions` bridge call fails — the
invocation rejects, or the envelope has `success = false` or no `data` —
`getPositions` resolves to the empty list (its return type is total: the
`catch` prevents any throw past the interface boundary). -/
theorem getPositions_empty_on_failure
    (b : BridgeOutcome (List AutotradePosition)) (st : AdapterState)
    (h : (∃ e, b = .reject e) ∨
      ∃ resp, b = .ok resp ∧ (resp.success = false ∨ resp.data = none)) :
    (AutotradeAdapter.getPositions b st).1 = [] := by
  rcases h with ⟨e, rfl⟩ | ⟨resp, rfl, hfail⟩
  · rfl
  · rcases hd : resp.data with _ | data
    · simp [AutotradeAdapter.getPositions,
        AutotradeAdapter.invokeAutotradeCommand, hd]
    · rcases hfail with hs | hne
      · simp [AutotradeAdapter.getPositions,
          AutotradeAdapter.invokeAutotradeCommand, hd, hs]
      · rw [hd] at hne
        exact absurd hne (by simp)

/-- C3 witness: a rejected (transport-failed) bridge call makes
`getPositions` resolve to `[]`. -/
theorem getPositions_empty_on_failure_witness :
    (AutotradeAdapter.getPositions (.reject "network unreachable")
      initialAdapterState).1 = [] :=
  getPositions_empty_on_failure (.reject "network unreachable")
    initialAdapterState (Or.inl ⟨"network unreachable", rfl⟩)

/-- C4: both position transforms (the exported
`transformAutotradePositionToPosition` and the adapter's private
`transformPosition`) split the signed quantity by side — long positions get
`buyQuantity = quantity`, `sellQuantity = 0`, short positions get
`buyQuantity = 0`, `sellQuantity = |quantity|` — and in every case
`buyQuantity - sellQuantity = quantity`. -/
theorem transform_position_side_split (ap : AutotradePosition) :
    (ap.quantity > 0 →
      (transformAutotradePositionToPosition ap).buyQuantity = ap.quantity ∧
      (transformAutotradePositionToPosition ap).sellQuantity = 0 ∧
      (AutotradeAdapter.transformPosition ap).buyQuantity = ap.quantity ∧
      (AutotradeAdapter.transformPosition ap).sellQuantity = 0) ∧
    (ap.quantity < 0 →
      (transformAutotradePositionToPosition ap).buyQuantity = 0 ∧
      (transformAutotradePositionToPosition ap).sellQuantity = |ap.quantity| ∧
      (AutotradeAdapter.transformPosition ap).buyQuantity = 0 ∧
      (AutotradeAdapter.transformPosition ap).sellQuantity = |ap.quantity|) ∧
    (transformAutotradePositionToPosition ap).buyQuantity -
      (transformAutotradePositionToPosition ap).sellQuantity = ap.quantity ∧
    (AutotradeAdapter.transformPosition ap).buyQuantity -
      (AutotradeAdapter.transformPosition ap).sellQuantity = ap.quantity := by
  refine ⟨fun hgt => ?_, fun hlt => ?_, ?_, ?_⟩
  · have hnl : ¬ ap.quantity < 0 := by linarith
    simp [transformAutotradePositionToPosition,
      AutotradeAdapter.transformPosition, hgt, hnl]
  · have hng : ¬ ap.quantity > 0 := by linarith
    simp [transformAutotradePositionToPosition,
      AutotradeAdapter.transformPosition, hlt, hng]
  all_goals
    simp only [transformAutotradePositionToPosition,
      AutotradeAdapter.transformPosition]
    rcases lt_trichotomy ap.quantity 0 with h | h | h
    · have hng : ¬ ap.quantity > 0 := by linarith
      simp only [if_neg hng, if_pos h, abs_of_neg h]
      ring
    · simp [h]
    · have hnl : ¬ ap.quantity < 0 := by linarith
      simp [if_pos h, if_neg hnl]

/-- C4 witness: on the repository's own sample position (`quantity = 100`),
the transform puts the whole quantity on the buy side. -/
theorem transform_position_side_split_witness :
    (transformAutotradePositionToPosition sampleAutotradePosition).buyQuantity
      = 100 ∧
    (transformAutotradePositionToPosition sampleAutotradePosition).sellQuantity
      = 0 := by
  have h := (transform_position_side_split sampleAutotradePosition).1
    (by norm_num [sampleAutotradePosition])
  refine ⟨?_, h.2.1⟩
  rw [h.1]
  norm_num [sampleAutotradePosition]

/-- C5: both position transforms force `overnight = true` on the output,
independently of the input record's own `overnight` field. -/
theorem transform_position_overnight_always_true (ap : AutotradePosition) :
    (transformAutotradePositionToPosition ap).overnight = true ∧
    (AutotradeAdapter.transformPosition ap).overnight = true :=
  ⟨rfl, rfl⟩

/-- C6: when the summed cost basis of the fetched positions is `0`, the
synthesized portfolio summary's `total_unrealized_pnl_percent` is `0` — the
division is guarded by `totalCostBasis > 0`. -/
theorem pnl_percent_zero_on_zero_cost_basis (accountId : String)
    (funds : Funds) (positions : List Position) (nowMs : Int)
    (nowIso : String)
    (h : AutotradePortfolioService.totalCostBasisOf positions = 0) :
    (AutotradePortfolioService.fetchAutotradePortfolio accountId funds
      positions nowMs nowIso).total_unrealized_pnl_percent = 0 := by
  simp [AutotradePortfolioService.fetchAutotradePortfolio, h]

/-- C6 witness: with no positions the summed cost basis is `0` and the
synthesized percentage is `0`. -/
theorem pnl_percent_zero_on_zero_cost_basis_witness :
    (AutotradePortfolioService.fetchAutotradePortfolio "DU8489265"
      scenarioFunds [] 0 "2026-01-01T00:00:00.000Z").total_unrealized_pnl_percent
      = 0 :=
  pnl_percent_zero_on_zero_cost_basis "DU8489265" scenarioFunds [] 0
    "2026-01-01T00:00:00.000Z" rfl

/-- C7: `transformAutotradePortfolioToFincept` produces exactly one holding
row per position (equal lengths), and row `i` preserves the `symbol`,
`quantity` and `averagePrice` of position `i` (stated as equality of the
projected field lists, which pins every index). -/
theorem transform_portfolio_preserves_rows (portfolio : AutotradePortfolioSummary)
    (portfolioId firstPurchaseIso : String) :
    (transformAutotradePortfolioToFincept portfolio portfolioId
      firstPurchaseIso).holdings.length = portfolio.positions.length ∧
    (transformAutotradePortfolioToFincept portfolio portfolioId
        firstPurchaseIso).holdings.map
        (fun h => (h.symbol, h.quantity, h.avg_buy_price)) =
      portfolio.positions.map
        (fun p => (p.symbol, p.quantity, p.averagePrice)) := by
  constructor
  · simp [transformAutotradePortfolioToFincept]
  · simp only [transformAutotradePortfolioToFincept, List.map_map]
    rfl

/-- C8: for the §8 scenario — funds with `availableCash = 50000` and a single
position with `quantity = 100`, `averagePrice = 45.5`, `lastPrice = 46.25`,
`pnl = 75` — the synthesized summary has `total_market_value = 4625`,
`total_cost_basis = 4550`, `total_unrealized_pnl = 75` and
`net_liquidation_value = 54625`. -/
theorem scenario_portfolio_totals (accountId : String) (funds : Funds)
    (p : Position) (nowMs : Int) (nowIso : String)
    (hc : funds.availableCash = 50000) (hq : p.quantity = 100)
    (ha : p.averagePrice = 45.5) (hl : p.lastPrice = 46.25)
    (hp : p.pnl = 75) :
    (AutotradePortfolioService.fetchAutotradePortfolio accountId funds [p]
      nowMs nowIso).total_market_value = 4625 ∧
    (AutotradePortfolioService.fetchAutotradePortfolio accountId funds [p]
      nowMs nowIso).total_cost_basis = 4550 ∧
    (AutotradePortfolioService.fetchAutotradePortfolio accountId funds [p]
      nowMs nowIso).total_unrealized_pnl = 75 ∧
    (AutotradePortfolioService.fetchAutotradePortfolio accountId funds [p]
      nowMs nowIso).net_liquidation_value = 54625 := by
  have hmv : AutotradePortfolioService.totalMarketValueOf [p] = 4625 := by
    simp only [AutotradePortfolioService.totalMarketValueOf, List.foldl,
      hq, hl, zero_add]
    rw [abs_of_nonneg (by norm_num)]
    norm_num
  have hcb : AutotradePortfolioService.totalCostBasisOf [p] = 4550 := by
    simp only [AutotradePortfolioService.totalCostBasisOf, List.foldl,
      hq, ha, zero_add]
    rw [abs_of_nonneg (by norm_num)]
    norm_num
  have hpnl : AutotradePortfolioService.totalUnrealizedPnlOf [p] = 75 := by
    simp [AutotradePortfolioService.totalUnrealizedPnlOf, hp]
  refine ⟨?_, ?_, ?_, ?_⟩ <;>
    norm_num [AutotradePortfolioService.fetchAutotradePortfolio, hmv, hcb,
      hpnl, hc]

/-- C8 witness: the scenario evaluated at the concrete funds and position
records. -/
theorem scenario_portfolio_totals_witness :
    (AutotradePortfolioService.fetchAutotradePortfolio "DU8489265"
      scenarioFunds [scenarioPosition] 0
      "2026-01-01T00:00:00.000Z").total_market_value = 4625 ∧
    (AutotradePortfolioService.fetchAutotradePortfolio "DU8489265"
      scenarioFunds [scenarioPosition] 0
      "2026-01-01T00:00:00.000Z").total_cost_basis = 4550 ∧
    (AutotradePortfolioService.fetchAutotradePortfolio "DU8489265"
      scenarioFunds [scenarioPosition] 0
      "2026-01-01T00:00:00.000Z").total_unrealized_pnl = 75 ∧
    (AutotradePortfolioService.fetchAutotradePortfolio "DU8489265"
      scenarioFunds [scenarioPosition] 0
      "2026-01-01T00:00:00.000Z").net_liquidation_value = 54625 :=
  scenario_portfolio_totals "DU8489265" scenarioFunds scenarioPosition 0
    "2026-01-01T00:00:00.000Z" rfl rfl rfl rfl rfl

/-- C9: every summary synthesized by the bridge service satisfies
`net_liquidation_value = total_market_value + cash_balance`, for any adapter
funds and positions. -/
theorem net_liquidation_eq_market_plus_cash (accountId : String)
    (funds : Funds) (positions : List Position) (nowMs : Int)
    (nowIso : String) :
    (AutotradePortfolioService.fetchAutotradePortfolio accountId funds
        positions nowMs nowIso).net_liquidation_value =
      (AutotradePortfolioService.fetchAutotradePortfolio accountId funds
        positions nowMs nowIso).total_market_value +
      (AutotradePortfolioService.fetchAutotradePortfolio accountId funds
        positions nowMs nowIso).cash_balance := rfl

/-- C10: every holding row returned by `getPortfolioSummary` has
`weight = 0` and `day_change_percent = 0`: the bridge zeroes both on the
synthesized positions, the transform hardcodes `day_change_percent := 0`
and passes `weight` through, and the final repackaging copies both. -/
theorem holdings_weight_day_change_zero (accountId : String) (funds : Funds)
    (positions : List Position) (nowMs : Int)
    (nowIso firstPurchaseIso : String) :
    ∀ h ∈ (AutotradePortfolioService.getPortfolioSummary accountId funds
      positions nowMs nowIso firstPurchaseIso).holdings,
      h.weight = 0 ∧ h.day_change_percent = 0 := by
  intro h hh
  simp only [AutotradePortfolioService.getPortfolioSummary,
    AutotradePortfolioService.fetchAutotradePortfolio,
    transformAutotradePortfolioToFincept, List.map_map, List.mem_map,
    Function.comp] at hh
  obtain ⟨p, hp, rfl⟩ := hh
  exact ⟨rfl, rfl⟩

/-- Holding row that `getPortfolioSummary` produces for `smallPosition`
(written out explicitly to serve as a concrete member). -/
def smallHolding : HoldingWithQuote :=
  { id := "SPY.ARCA"
    portfolio_id := "autotrade-portfolio"
    symbol := "SPY"
    quantity := 1
    avg_buy_price := 2
    current_price := 3
    market_value := 3
    cost_basis := 2
    unrealized_pnl := 1
    unrealized_pnl_percent := 50
    day_change := 0
    day_change_percent := 0
    weight := 0
    first_purchase_date := "2025-12-31T00:00:00.000Z"
    last_updated := "2026-01-01T00:00:00.000Z" }

/-- C10 witness: the concrete holding produced for `smallPosition` has zero
weight and zero day-change percent. -/
theorem holdings_weight_day_change_zero_witness :
    smallHolding.weight = 0 ∧ smallHolding.day_change_percent = 0 := by
  have h3 : |(1 : ℚ) * 3| = 3 := by
    rw [abs_of_nonneg] <;> norm_num
  have h2 : |(1 : ℚ) * 2| = 2 := by
    rw [abs_of_nonneg] <;> norm_num
  have hmem : smallHolding ∈ (AutotradePortfolioService.getPortfolioSummary
      "DU8489265" scenarioFunds [smallPosition] 0
      "2026-01-01T00:00:00.000Z" "2025-12-31T00:00:00.000Z").holdings := by
    simp only [AutotradePortfolioService.getPortfolioSummary,
      AutotradePortfolioService.fetchAutotradePortfolio,
      AutotradePortfolioService.defaultPortfolioId,
      transformAutotradePortfolioToFincept, List.map_map, List.map_cons,
      List.map_nil, Function.comp, List.mem_singleton]
    simp [smallHolding, smallPosition, h3, h2]
  exact holdings_weight_day_change_zero "DU8489265" scenarioFunds
    [smallPosition] 0 "2026-01-01T00:00:00.000Z" "2025-12-31T00:00:00.000Z"
    smallHolding hmem

end Autotrade
